import Mathlib

/-!
Shallow embedding of the wheelamb function-lifecycle orchestrator
(`lambda.go`, `lambda_service.go`, `docker/docker.go`) in Lean 4.

Strings and byte slices are modelled by `String` / `List Nat`; fallible Go
operations return `Option` / `Except`; the Docker engine, the uuid source,
the clock and the sha256 routine are environment parameters threaded into
the operations, matching the places where the Go code performs I/O.
-/

namespace Wheelamb

/-- Go `base64.StdEncoding` alphabet: index of one character, `none` when the
character is not in the alphabet. -/
def b64Index (c : Char) : Option Nat :=
  if 'A' ≤ c ∧ c ≤ 'Z' then some (c.toNat - 65)
  else if 'a' ≤ c ∧ c ≤ 'z' then some (c.toNat - 97 + 26)
  else if '0' ≤ c ∧ c ≤ '9' then some (c.toNat - 48 + 52)
  else if c = '+' then some 62
  else if c = '/' then some 63
  else none

/-- Decode the base64 character stream in 4-character quanta, exactly as
`encoding/base64.StdEncoding` does: a final quantum may carry one or two
padding characters; padding anywhere else, a stray alphabet character count,
or a character outside the alphabet is a decode error. -/
def b64Quanta : List Char → Option (List Nat)
  | [] => some []
  | a :: b :: c :: d :: rest =>
    match b64Index a, b64Index b with
    | some va, some vb =>
      if c = '=' then
        if d = '=' ∧ rest = [] then some [va * 4 + vb / 16]
        else none
      else
        match b64Index c with
        | some vc =>
          if d = '=' then
            if rest = [] then some [va * 4 + vb / 16, (vb % 16) * 16 + vc / 4]
            else none
          else
            match b64Index d with
            | some vd =>
              (b64Quanta rest).map
                (fun t => (va * 4 + vb / 16) :: ((vb % 16) * 16 + vc / 4) ::
                  ((vc % 4) * 64 + vd) :: t)
            | none => none
        | none => none
    | _, _ => none
  | _ => none

/-- Go `base64.StdEncoding.DecodeString`: newline characters are skipped,
then the stream is decoded in padded 4-character quanta.  `none` models the
`CorruptInputError` failure. -/
def base64Decode (s : String) : Option (List Nat) :=
  b64Quanta (s.data.filter (fun c => c ≠ '\r' ∧ c ≠ '\n'))

/-- One staged directory: the files it holds (name, bytes). -/
abbrev DirEntry : Type := List (String × List Nat)

/-- The on-disk state seen by the code store: an association from directory
path to directory contents. -/
abbrev Disk : Type := List (String × DirEntry)

/-- `os.Stat` on a directory path: the directory's contents when it exists. -/
def lookupDisk : Disk → String → Option DirEntry
  | [], _ => none
  | e :: es, k => if e.1 = k then some e.2 else lookupDisk es k

/-- `os.MkdirAll`: create an empty directory at the given path. -/
def addDir (disk : Disk) (k : String) : Disk := (k, ([] : DirEntry)) :: disk

/-- `os.RemoveAll`: drop the directory at the given path. -/
def removeDir (disk : Disk) (k : String) : Disk :=
  disk.filter (fun e => e.1 ≠ k)

/-- `os.OpenFile` + `io.Copy`: write one file into an existing directory. -/
def writeFile : Disk → String → String → List Nat → Disk
  | [], _, _, _ => []
  | e :: es, k, f, bs =>
    if e.1 = k then (k, (f, bs) :: e.2) :: es else e :: writeFile es k f bs

/-- `filepath.Join` for the clean relative components the service uses. -/
def jp (a b : String) : String := a ++ "/" ++ b

/-- The provider-style error codes raised by the service
(`awserr.New(lambda.ErrCode...)`), plus the structural-validation error of
the external request validator, plus `panic` for a nil-pointer dereference. -/
inductive ErrCode
  | validationError
  | resourceInUse
  | invalidRuntime
  | invalidZipFile
  | serviceException
  | resourceNotFound
deriving DecidableEq

/-- Result of `putZippedCode`: the size written, or the error raised. -/
inductive PutResult
  | ok (size : Nat)
  | err (e : ErrCode)
deriving DecidableEq

/-- `putZippedCode(d, name, zippedFile)` from `lambda_service.go`:
stat the target directory (`ResourceInUse` when it already exists), create
it, base64-decode the payload (`InvalidZipFile` on failure, removing the
fresh directory via the deferred cleanup), then write `code.zip` and report
the number of bytes copied. -/
def putZippedCode (disk : Disk) (path : String) (zippedFile : String) :
    PutResult × Disk :=
  match lookupDisk disk path with
  | some _ => (.err .resourceInUse, disk)
  | none =>
    let disk1 := addDir disk path
    match base64Decode zippedFile with
    | none => (.err .invalidZipFile, removeDir disk1 path)
    | some zipped =>
      (.ok zipped.length, writeFile disk1 path "code.zip" zipped)

/-- `lambda.FunctionCode` (only the fields the service reads). -/
structure FunctionCode where
  zipFile : Option String
  s3Bucket : Option String
  s3Key : Option String
  s3ObjectVersion : Option String
deriving DecidableEq

/-- `lambda.Environment`: the caller-supplied environment-variable map,
modelled as an association list. -/
structure Environment where
  vars : Option (List (String × String))
deriving DecidableEq

/-- `lambda.CreateFunctionInput` (the fields the service validates or
dereferences; pointers become `Option`). -/
structure CreateFunctionInput where
  functionName : Option String
  runtime : Option String
  handler : Option String
  role : Option String
  memorySize : Option Int
  timeout : Option Int
  description : Option String
  code : Option FunctionCode
  environment : Option Environment
deriving DecidableEq

/-- `lambda.FunctionCode.Validate` of the external AWS SDK: minimum lengths
of the S3 locator fields. -/
def validateCode (c : FunctionCode) : Bool :=
  (match c.s3Bucket with | none => true | some b => 3 ≤ b.length) &&
  (match c.s3Key with | none => true | some k => 1 ≤ k.length) &&
  (match c.s3ObjectVersion with | none => true | some v => 1 ≤ v.length)

/-- `lambda.CreateFunctionInput.Validate` of the external AWS SDK:
`Code`, `FunctionName` (length ≥ 1), `Handler`, `Role` and `Runtime` are
required; `MemorySize ≥ 128` and `Timeout ≥ 1` when present. -/
def validate (i : CreateFunctionInput) : Bool :=
  i.code.isSome &&
  (match i.functionName with | none => false | some n => 1 ≤ n.length) &&
  i.handler.isSome && i.role.isSome && i.runtime.isSome &&
  (match i.memorySize with | none => true | some m => 128 ≤ m) &&
  (match i.timeout with | none => true | some t => 1 ≤ t) &&
  (match i.code with | none => true | some c => validateCode c)

/-- `availableTags` from `lambda.go`: the fixed allow-list of supported
lambci runtime tags. -/
def availableTags : List String :=
  ["nodejs4.3", "nodejs6.10", "nodejs8.10", "nodejs10.x", "nodejs12.x",
   "python2.7", "python3.6", "python3.7", "python3.8",
   "ruby2.5", "ruby2.7", "java8", "java11", "go1.x",
   "dotnetcore2.0", "dotnetcore2.1", "dotnetcore3.1"]

/-- `docker.RunImageConfig`: the launch request handed to the gateway. -/
structure RunImageConfig where
  name : String
  envs : List (String × String)
  dir : String
  tag : String
  handler : String
deriving DecidableEq

/-- `LambdaFunction` from `lambda.go` (exported fields plus the runtime
binding the service fills in). -/
structure LambdaFunction where
  codeSha256 : List Nat
  functionName : String
  codeSize : Nat
  revisionID : String
  memorySize : Int
  functionArn : String
  version : String
  timeout : Int
  lastModified : Nat
  handler : String
  runtime : String
  description : Option String
  envs : List (String × String)
  containerID : String
deriving DecidableEq

/-- The mutable state of one `LambdaService`: the staging base directory,
the disk it stages into, and the in-memory pool of created functions. -/
structure ServiceState where
  dir : String
  disk : Disk
  pool : List (String × LambdaFunction)

/-- The service's environment: the Docker gateway (`RunImage` outcome per
launch request), the uuid source, the clock, the process-wide region
configuration, and the sha256 routine. -/
structure CreateEnv where
  gw : RunImageConfig → Except String String
  uuid : String
  now : Nat
  region : String
  sha256 : String → List Nat

/-- Outcome of `LambdaService.Create`: the record, a provider-style error,
or a nil-pointer dereference (`panic`). -/
inductive CreateResult
  | ok (lf : LambdaFunction)
  | err (e : ErrCode)
  | panic
deriving DecidableEq

/-- The environment map copied out of the input by `Create`. -/
def envsOf (input : CreateFunctionInput) : List (String × String) :=
  match input.environment with
  | none => []
  | some e => e.vars.getD []

/-- `LambdaService.Create` from `lambda_service.go`: validate the input,
reject runtimes outside `availableTags`, require an inline zip payload,
stage the code with `putZippedCode`, launch the container through the
gateway, then build and register the `LambdaFunction`.  The returned list
records every gateway launch call the operation issued. -/
def create (env : CreateEnv) (s : ServiceState) (input : CreateFunctionInput) :
    CreateResult × ServiceState × List RunImageConfig :=
  if validate input then
    match input.runtime with
    | none => (.panic, s, [])
    | some rt =>
      if rt ∈ availableTags then
        match input.code with
        | none => (.panic, s, [])
        | some c =>
          match c.zipFile with
          | none => (.err .invalidZipFile, s, [])
          | some zipFile =>
            match input.functionName with
            | none => (.panic, s, [])
            | some name =>
              match putZippedCode s.disk (jp s.dir name) zipFile with
              | (.err e, disk1) => (.err e, { s with disk := disk1 }, [])
              | (.ok size, disk1) =>
                let envs := envsOf input
                match input.handler with
                | none => (.panic, { s with disk := disk1 }, [])
                | some handler =>
                  let cfg : RunImageConfig :=
                    { name := "wheelamb-" ++ name
                      envs := envs
                      dir := jp s.dir name
                      tag := rt
                      handler := handler }
                  match env.gw cfg with
                  | .error _ =>
                    (.err .serviceException, { s with disk := disk1 }, [cfg])
                  | .ok containerID =>
                    match input.memorySize, input.timeout with
                    | some mem, some tmo =>
                      let lf : LambdaFunction :=
                        { codeSha256 := env.sha256 zipFile
                          functionName := name
                          codeSize := size
                          revisionID := env.uuid
                          memorySize := mem
                          functionArn := "arn:aws:lambda:" ++ env.region ++
                            ":000000000000:function:" ++ name
                          version := "$LATEST"
                          timeout := tmo
                          lastModified := env.now
                          handler := handler
                          runtime := rt
                          description := input.description
                          envs := envs
                          containerID := containerID }
                      (.ok lf,
                        { s with disk := disk1, pool := (name, lf) :: s.pool },
                        [cfg])
                    | _, _ => (.panic, { s with disk := disk1 }, [cfg])
      else (.err .invalidRuntime, s, [])
  else (.err .validationError, s, [])

/-- `lambda.InvokeInput` (the fields a caller would supply). -/
structure InvokeInput where
  functionName : Option String
  payload : Option String
deriving DecidableEq

/-- `LambdaService.InvokeSync` from `lambda_service.go`: the body is
`return nil, nil` — no registry lookup, no container call, no error. -/
def invokeSync (_s : ServiceState) (_input : InvokeInput) :
    Option String × Option ErrCode :=
  (none, none)

/-- `LambdaService.InvokeAsync` from `lambda_service.go`: the body is
`return nil, nil` — no registry lookup, no container call, no error. -/
def invokeAsync (_s : ServiceState) (_input : InvokeInput) :
    Option String × Option ErrCode :=
  (none, none)

/-! ### Container gateway (`docker/docker.go`) -/

namespace Docker

/-- How the engine answers one `POST /containers/{id}/kill` request:
either the HTTP transport fails, or a status code comes back together with
the outcome of reading the response body. -/
inductive KillOutcome
  | transport (msg : String)
  | status (code : Nat) (bodyRead : Except String String)

/-- The body of one `KillMulti` goroutine: `some e` when the attempt
records the error `e` into the shared list, `none` on success
(status code `< 300`). -/
def killOne (id : String) (o : KillOutcome) : Option String :=
  match o with
  | .transport m => some m
  | .status code bodyRead =>
    if code < 300 then none
    else
      match bodyRead with
      | .error e => some e
      | .ok b => some ("failed to kill container: " ++ id ++ ", err: " ++ b)

/-- A Go `error` interface value as seen by `KillMulti`'s caller: the nil
interface, or an interface holding a concrete `errList` value.  Converting
the concrete slice `errs` to the interface (`return errs`) always yields
`errList errs`, a non-nil interface, even when the slice itself is nil. -/
inductive GoError
  | nil
  | errList (es : List String)
deriving DecidableEq

/-- `dockerGateway.KillMulti` from `docker/docker.go`, with the per-attempt
engine behaviour supplied by `engine` and the attempts sequentialised (the
Go code runs them under a 3-slot semaphore; the claim is about the
collected set, not the interleaving): every failed attempt appends its
error to `errs`, and the function ends with `return errs`, converting the
concrete `errList` slice into the `error` interface. -/
def killMulti (engine : String → KillOutcome) (ids : List String) : GoError :=
  .errList (ids.filterMap (fun id => killOne id (engine id)))

/-- The error returned by one `bufio` `ReadBytes` call inside the pull
loop: end-of-stream or any other read failure. -/
inductive ReadErr
  | eof
  | other (msg : String)

/-- The progress-stream read loop of `dockerGateway.pullImage`:
`stream i` is the `(line, err)` pair the `i`-th `ReadBytes('\n')` call
returns.  The Go loop breaks (and the function then returns `nil`) only
when `err == io.EOF`; every other outcome — a clean line or a non-EOF read
error — just logs and continues.  `fuel` bounds the number of iterations
observed: `none` means the loop has not returned within `fuel` steps, and
`some r` that `pullImage` returned the Go error value `r` (always `none`,
i.e. `nil`, since no loop path returns an error). -/
def pullLoop (stream : Nat → String × Option ReadErr) :
    Nat → Nat → Option (Option String)
  | 0, _ => none
  | fuel + 1, i =>
    match (stream i).2 with
    | some .eof => some none
    | _ => pullLoop stream fuel (i + 1)

/-- A progress stream that delivers one line whose read ends with a
non-EOF failure, after which the stream reaches end-of-stream. -/
def errThenEofStream : Nat → String × Option ReadErr
  | 0 => ("", some (.other "connection reset"))
  | _ + 1 => ("", some .eof)

/-- A progress stream whose every read fails with the same non-EOF error,
as an HTTP response body does once its connection is torn down. -/
def persistentErrStream : Nat → String × Option ReadErr :=
  fun _ => ("", some (.other "connection reset"))

/-- `defaultNetwork` from `docker/docker.go`. -/
def defaultNetwork : String := "wheelamb_default"

/-- One entry of the `Mounts` array of a container-inspection response. -/
structure ContainerMount where
  type : String
  name : String
  source : String
  destination : String
  driver : String
deriving DecidableEq

/-- `containerHostConfig` (the fields the gateway reads or writes). -/
structure ContainerHostConfig where
  binds : List String
  networkMode : String
  autoRemove : Bool
  restartPolicyName : String
  mounts : List ContainerMount
deriving DecidableEq

/-- How the engine answers `GET /containers/{name}/json`: transport
failure, 404, a non-200 status with a JSON error message, or 200 with the
decoded `HostConfig` and `Mounts`. -/
inductive InspectResponse
  | transport (msg : String)
  | notFound
  | errorStatus (msg : String)
  | ok (hostConfig : ContainerHostConfig) (mounts : List ContainerMount)

/-- `dockerGateway.inspectHostConfigFromContainer` from `docker/docker.go`:
a 404 yields `&containerHostConfig{NetworkMode: ""}` (note: the empty
string, not `defaultNetwork`); a 200 yields the decoded host config with
the response's `Mounts` grafted on; anything else is an error. -/
def inspectHostConfigFromContainer (resp : InspectResponse) :
    Except String ContainerHostConfig :=
  match resp with
  | .transport m => .error m
  | .notFound =>
    .ok { binds := [], networkMode := "", autoRemove := false,
          restartPolicyName := "", mounts := [] }
  | .errorStatus m => .error m
  | .ok hc mounts => .ok { hc with mounts := mounts }

/-- The gateway configuration resolved once at construction. -/
structure DockerGateway where
  networkName : String
  volume : String
deriving DecidableEq

/-- The mount-scanning loop of `NewDockerGateway`: `gw.volume` starts as
the zero value `""` and is overwritten by each mount of type `"volume"`
destined for `/var/task`. -/
def resolveVolume (mounts : List ContainerMount) : String :=
  mounts.foldl
    (fun acc m =>
      if m.type = "volume" ∧ m.destination = "/var/task" then m.name else acc)
    ""

/-- `NewDockerGateway` from `docker/docker.go`, given the engine's answer
to the self-inspection of the calling process's own container: record the
inspected `NetworkMode` as the gateway's network name and scan the mounts
for the `/var/task` volume. -/
def newDockerGateway (selfInspect : InspectResponse) :
    Except String DockerGateway :=
  match inspectHostConfigFromContainer selfInspect with
  | .error m => .error m
  | .ok conf =>
    .ok { networkName := conf.networkMode, volume := resolveVolume conf.mounts }

/-- The JSON body `dockerGateway.createContainer` posts to
`/containers/create` (the pure construction step, before any I/O). -/
structure CreateContainerConfig where
  env : List String
  cmd : List String
  image : String
  hostConfig : ContainerHostConfig
  endpointsConfig : List (String × List String)
deriving DecidableEq

/-- The request body built by `dockerGateway.createContainer` from
`docker/docker.go` for one launch: the stay-open flag plus the caller's
environment entries, the lambci image at the requested tag, the handler
path as command, a bind of the gateway's volume onto `/var/task`, the
gateway's network both as `NetworkMode` and as the single endpoint carrying
the container name as alias. -/
def buildCreateContainerConfig (d : DockerGateway)
    (params : Wheelamb.RunImageConfig) : CreateContainerConfig :=
  { env := "DOCKER_LAMBDA_STAY_OPEN=1" ::
      params.envs.map (fun kv => kv.1 ++ "=" ++ kv.2)
    cmd := [Wheelamb.jp params.dir params.handler]
    image := "docker.io/lambci/lambda:" ++ params.tag
    hostConfig :=
      { binds := [d.volume ++ ":/var/task:ro,delegated"]
        networkMode := d.networkName
        autoRemove := true
        restartPolicyName := "no"
        mounts := [] }
    endpointsConfig := [(d.networkName, [params.name])] }

end Docker

/-! ### Function registry (`LambdaRegistry` in `lambda.go`) -/

/-- Go `strings.Split(s, ":")` over the character list of `s`: always at
least one field; an empty input yields `[[]]`. -/
def goSplit : List Char → List (List Char)
  | [] => [[]]
  | c :: cs =>
    if c = ':' then [] :: goSplit cs
    else
      match goSplit cs with
      | [] => [[c]]
      | w :: ws => (c :: w) :: ws

/-- Joining with `':'`: the inverse used to build an ARN string from its
segments (`fmt.Sprintf("arn:aws:lambda:%s:000000000000:function:%s", ...)`
is the 7-segment instance of this). -/
def joinColon : List (List Char) → List Char
  | [] => []
  | [x] => x
  | x :: xs => x ++ ':' :: joinColon xs

/-- `LambdaRegistry.mapping`: function name to record (generic in the
record type, which `GetFromARN` never inspects). -/
def regLookup {α : Type} : List (List Char × α) → List Char → Option α
  | [], _ => none
  | e :: es, k => if e.1 = k then some e.2 else regLookup es k

/-- The indexing loop of `GetFromARN`: walk `parts[i]` against the expected
literals in lockstep.  `none` models the index-out-of-range panic Go raises
when `parts` runs out while expected literals remain; `some false` is the
loop's early `return nil` on a mismatch; `some true` means all six fixed
segments matched. -/
def arnCheck : List (List Char) → List (List Char) → Option Bool
  | _, [] => some true
  | [], _ :: _ => none
  | p :: ps, e :: es => if p = e then arnCheck ps es else some false

/-- The expected fixed segments of a function ARN, with the process-wide
region configuration (`*awsConf.Region`) spliced in. -/
def expectedSegs (region : List Char) : List (List Char) :=
  ["arn".data, "aws".data, "lambda".data, region, "000000000000".data,
   "function".data]

/-- The part of `GetFromARN` after `strings.Split`: compare the segments
with the expected literals (returning `nil` on the first mismatch), then
resolve `parts[6]` in the mapping.  The outer `Option` models abnormal
termination: `none` is an index-out-of-range panic (`parts[i]` or
`parts[6]` with too few segments), `some r` a normal return of `r`. -/
def getFromParts {α : Type} (mapping : List (List Char × α))
    (parts expected : List (List Char)) : Option (Option α) :=
  match arnCheck parts expected with
  | none => none
  | some false => some none
  | some true =>
    match parts.drop 6 with
    | [] => none
    | name :: _ => some (regLookup mapping name)

/-- `LambdaRegistry.GetFromARN` from `lambda.go`: split the identifier on
`':'` and run the segment checks and the `parts[6]` lookup. -/
def getFromARN {α : Type} (region : List Char) (mapping : List (List Char × α))
    (arn : List Char) : Option (Option α) :=
  getFromParts mapping (goSplit arn) (expectedSegs region)

/-! ### Concrete fixtures used by witnesses and counterexamples -/

/-- An engine for which every kill request answers `204 No Content`. -/
def killAllSucceedEngine : String → Docker.KillOutcome :=
  fun _ => .status 204 (.ok "")

/-- An engine for which the kill of container `"b"` answers `404` with an
engine error body and every other kill succeeds, as in the spec's
`["a","b","c","d"]` teardown example. -/
def killOnlyBFailsEngine : String → Docker.KillOutcome :=
  fun id =>
    if id = "b" then .status 404 (.ok "No such container: b")
    else .status 204 (.ok "")

/-- A service environment whose gateway always launches successfully. -/
def env0 : CreateEnv :=
  { gw := fun _ => .ok "cid0"
    uuid := "uuid-0"
    now := 0
    region := "ap-northeast-1"
    sha256 := fun _ => [] }

/-- A fresh service state: empty disk, empty pool. -/
def s0 : ServiceState := { dir := "/tmp/wheelamb", disk := [], pool := [] }

/-- A service state in which function `"mytest"` already has a staging
directory holding its `code.zip`. -/
def sStaged : ServiceState :=
  { dir := "/tmp/wheelamb"
    disk := [(jp "/tmp/wheelamb" "mytest", [("code.zip", [1, 2, 3])])]
    pool := [] }

/-- A create request that fails structural validation (no name, no code)
while carrying the unsupported runtime tag `"go1.14"`. -/
def c5BadInput : CreateFunctionInput :=
  { functionName := none, runtime := some "go1.14", handler := none,
    role := none, memorySize := none, timeout := none, description := none,
    code := none, environment := none }

/-- A structurally valid create request carrying the unsupported runtime
tag `"go1.14"`. -/
def c5ValidatedInput : CreateFunctionInput :=
  { functionName := some "mytest", runtime := some "go1.14",
    handler := some "fake", role := some "foobar", memorySize := some 128,
    timeout := some 16, description := none,
    code := some { zipFile := some "aGVsbG8=", s3Bucket := none,
                   s3Key := none, s3ObjectVersion := none },
    environment := none }

/-- A structurally valid create request with supported runtime `"go1.x"`
and a well-formed base64 inline archive. -/
def cOkInput : CreateFunctionInput :=
  { functionName := some "mytest", runtime := some "go1.x",
    handler := some "fake", role := some "foobar", memorySize := some 128,
    timeout := some 16, description := none,
    code := some { zipFile := some "aGVsbG8=", s3Bucket := none,
                   s3Key := none, s3ObjectVersion := none },
    environment := none }

/-- A structurally valid create request whose inline payload `"aaaii"` is
not decodable base64 (the decode-failure input of the repository's own
test suite). -/
def cBadZipInput : CreateFunctionInput :=
  { functionName := some "mytest", runtime := some "go1.x",
    handler := some "fake", role := some "foobar", memorySize := some 128,
    timeout := some 16, description := none,
    code := some { zipFile := some "aaaii", s3Bucket := none,
                   s3Key := none, s3ObjectVersion := none },
    environment := none }

end Wheelamb

/-! ### Helper lemmas -/

namespace Wheelamb

theorem lookupDisk_none_head {e : String × DirEntry} {es : Disk} {k : String}
    (h : lookupDisk (e :: es) k = none) : e.1 ≠ k ∧ lookupDisk es k = none := by
  by_cases hk : e.1 = k
  · simp [lookupDisk, hk] at h
  · exact ⟨hk, by simpa [lookupDisk, hk] using h⟩

theorem lookupDisk_none_not_mem (disk : Disk) (k : String)
    (h : lookupDisk disk k = none) : ∀ e ∈ disk, e.1 ≠ k := by
  induction disk with
  | nil => simp
  | cons e es ih =>
    obtain ⟨h1, h2⟩ := lookupDisk_none_head h
    intro x hx
    rcases List.mem_cons.mp hx with hx | hx
    · simpa [hx] using h1
    · exact ih h2 x hx

theorem filter_ne_of_lookup_none (disk : Disk) (k : String)
    (h : lookupDisk disk k = none) :
    disk.filter (fun e => e.1 ≠ k) = disk := by
  rw [List.filter_eq_self]
  intro e he
  simpa using lookupDisk_none_not_mem disk k h e he

theorem removeDir_addDir_of_fresh (disk : Disk) (k : String)
    (h : lookupDisk disk k = none) :
    removeDir (addDir disk k) k = disk := by
  have : removeDir (addDir disk k) k = disk.filter (fun e => e.1 ≠ k) := by
    simp [removeDir, addDir, List.filter_cons]
  rw [this, filter_ne_of_lookup_none disk k h]

theorem goSplit_no_colon (cs : List Char) (h : ':' ∉ cs) :
    goSplit cs = [cs] := by
  induction cs with
  | nil => rfl
  | cons c cs ih =>
    have hc : c ≠ ':' := fun e => h (by simp [e])
    have := ih (fun m => h (List.mem_cons_of_mem _ m))
    simp [goSplit, hc, this]

theorem goSplit_append_colon (xs ys : List Char) (h : ':' ∉ xs) :
    goSplit (xs ++ ':' :: ys) = xs :: goSplit ys := by
  induction xs with
  | nil => simp [goSplit]
  | cons c cs ih =>
    have hc : c ≠ ':' := fun e => h (by simp [e])
    have := ih (fun m => h (List.mem_cons_of_mem _ m))
    simp [goSplit, hc, this]

theorem goSplit_joinColon (segs : List (List Char)) (hne : segs ≠ [])
    (h : ∀ s ∈ segs, ':' ∉ s) : goSplit (joinColon segs) = segs := by
  induction segs with
  | nil => cases hne rfl
  | cons x xs ih =>
    cases xs with
    | nil => simpa [joinColon] using goSplit_no_colon x (h x (by simp))
    | cons y ys =>
      have hx : ':' ∉ x := h x (by simp)
      have hj : joinColon (x :: y :: ys) = x ++ ':' :: joinColon (y :: ys) := rfl
      rw [hj, goSplit_append_colon _ _ hx,
        ih (by simp) (fun s hs => h s (List.mem_cons_of_mem _ hs))]

end Wheelamb

/-! ### Claim theorems -/

namespace Wheelamb

/-- Claim C1 (code evidence): the bodies of `LambdaService.InvokeSync` and
`LambdaService.InvokeAsync` are `return nil, nil`: for every service state
and every invocation input — in particular any function name absent from
the registry — both return a nil error and a nil response, so neither
resolves the function through the registry nor fails with
`ResourceNotFound`. -/
theorem claim_C1_invoke_stub_nil (s : ServiceState) (input : InvokeInput) :
    invokeSync s input = (none, none) ∧ invokeAsync s input = (none, none) :=
  ⟨rfl, rfl⟩

/-- Claim C2 (code evidence): `KillMulti` ends with `return errs`,
converting the concrete `errList` slice to the `error` interface, which is
non-nil even when the slice is empty.  With two containers whose kills both
succeed, no error is collected, yet the returned interface is not the nil
error; and in the spec's `["a","b","c","d"]` example where only `b` fails,
the aggregate holds exactly `b`'s failure. -/
theorem claim_C2_killmulti_typed_nil :
    Docker.killMulti killAllSucceedEngine ["a", "b"] = Docker.GoError.errList []
    ∧ Docker.killMulti killAllSucceedEngine ["a", "b"] ≠ Docker.GoError.nil
    ∧ Docker.killMulti killOnlyBFailsEngine ["a", "b", "c", "d"] =
        Docker.GoError.errList
          ["failed to kill container: b, err: No such container: b"] := by
  refine ⟨rfl, by decide, ?_⟩
  decide

/-- Claim C3 (code evidence): the read loop of `pullImage` breaks only on
`io.EOF` and otherwise ignores the read error: on a stream whose first
read fails with a non-EOF error and whose next read reports end-of-stream,
`pullImage` returns `nil` (success) instead of the failure; and on a
stream that persistently fails with a non-EOF error, the loop never
returns at all, for any number of observed iterations. -/
theorem claim_C3_pull_ignores_read_errors :
    Docker.pullLoop Docker.errThenEofStream 2 0 = some none
    ∧ ∀ fuel i, Docker.pullLoop Docker.persistentErrStream fuel i = none := by
  refine ⟨rfl, ?_⟩
  intro fuel
  induction fuel with
  | zero => intro i; rfl
  | succ n ih =>
    intro i
    simpa [Docker.pullLoop, Docker.persistentErrStream] using ih (i + 1)

/-- Claim C4 (counterexample): when the self-inspection answers 404, the
gateway constructed by `NewDockerGateway` records the empty string as its
network name, not the declared default network identifier
`defaultNetwork = "wheelamb_default"` (that constant is never used). -/
theorem claim_C4_counterexample :
    Docker.newDockerGateway Docker.InspectResponse.notFound =
      Except.ok { networkName := "", volume := "" }
    ∧ ("" : String) ≠ Docker.defaultNetwork := by
  exact ⟨rfl, by decide⟩

/-- Claim C4 (amended): when the self-inspection answers 404, the gateway
records the empty string as network name and proceeds with no shared
volume, and every later container launch uses exactly that recorded
configuration: `NetworkMode` is the recorded (empty) network, the single
endpoint entry is keyed by it with the container name as alias, and the
bind mounts the recorded (empty) volume onto `/var/task`. -/
theorem claim_C4_amended :
    Docker.newDockerGateway Docker.InspectResponse.notFound =
      Except.ok { networkName := "", volume := "" }
    ∧ ∀ params : RunImageConfig,
        (Docker.buildCreateContainerConfig
            { networkName := "", volume := "" } params).hostConfig.networkMode
          = ""
        ∧ (Docker.buildCreateContainerConfig
            { networkName := "", volume := "" } params).endpointsConfig
          = [("", [params.name])]
        ∧ (Docker.buildCreateContainerConfig
            { networkName := "", volume := "" } params).hostConfig.binds
          = [":/var/task:ro,delegated"] := by
  refine ⟨rfl, fun params => ⟨rfl, rfl, ?_⟩⟩
  simp [Docker.buildCreateContainerConfig]

/-- Claim C5 (counterexample): a create request that fails the external
structural validation while carrying the unsupported runtime tag
`"go1.14"` is rejected with the validation error, not with
`InvalidRuntime` (the runtime check runs only after validation passes). -/
theorem claim_C5_counterexample :
    ("go1.14" ∉ availableTags)
    ∧ create env0 s0 c5BadInput =
        (.err .validationError, s0, ([] : List RunImageConfig))
    ∧ ErrCode.validationError ≠ ErrCode.invalidRuntime := by
  refine ⟨by decide, rfl, by decide⟩

/-- Claim C5 (amended): for every create request that passes the external
structural validation and whose runtime tag is not in `availableTags`,
`Create` fails with `InvalidRuntime`, leaves the service state (disk and
pool) exactly as before, and issues no gateway call. -/
theorem claim_C5_amended (env : CreateEnv) (s : ServiceState)
    (input : CreateFunctionInput) (rt : String)
    (hv : validate input = true) (hrt : input.runtime = some rt)
    (hnotin : rt ∉ availableTags) :
    create env s input = (.err .invalidRuntime, s, []) := by
  simp [create, hv, hrt, hnotin]

/-- Claim C5 (witness): the amended statement at a concrete validated
request with runtime `"go1.14"`. -/
theorem claim_C5_witness :
    validate c5ValidatedInput = true
    ∧ ("go1.14" ∉ availableTags)
    ∧ create env0 s0 c5ValidatedInput = (.err .invalidRuntime, s0, []) :=
  ⟨by decide, by decide,
    claim_C5_amended env0 s0 c5ValidatedInput "go1.14" (by decide) rfl
      (by decide)⟩

/-- Claim C6: for every validated create request with a supported runtime
whose inline payload fails base64 decoding, and whose function name has no
staging directory yet, `Create` fails with `InvalidZipFile` and the staging
directory created for that name is removed before returning: the resulting
service state equals the state before the call (all-or-nothing staging),
and no gateway call is issued. -/
theorem claim_C6_decode_failure_cleanup (env : CreateEnv) (s : ServiceState)
    (input : CreateFunctionInput) (rt zf name : String) (c : FunctionCode)
    (hv : validate input = true) (hrt : input.runtime = some rt)
    (hin : rt ∈ availableTags) (hc : input.code = some c)
    (hzf : c.zipFile = some zf) (hname : input.functionName = some name)
    (hfresh : lookupDisk s.disk (jp s.dir name) = none)
    (hdec : base64Decode zf = none) :
    create env s input = (.err .invalidZipFile, s, []) := by
  simp [create, hv, hrt, hin, hc, hzf, hname, putZippedCode, hfresh, hdec,
    removeDir_addDir_of_fresh s.disk (jp s.dir name) hfresh]

/-- Claim C6 (witness): the statement at the repository test's own
undecodable payload `"aaaii"` against a fresh state. -/
theorem claim_C6_witness :
    base64Decode "aaaii" = none
    ∧ create env0 s0 cBadZipInput = (.err .invalidZipFile, s0, []) :=
  ⟨by decide,
    claim_C6_decode_failure_cleanup env0 s0 cBadZipInput "go1.x" "aaaii"
      "mytest" { zipFile := some "aaaii", s3Bucket := none, s3Key := none,
                 s3ObjectVersion := none }
      (by decide) rfl (by decide) rfl rfl rfl rfl (by decide)⟩

/-- Claim C7: for every validated create request with a supported runtime
whose function name already has a staging directory, `Create` fails with
`ResourceInUse` and returns the service state exactly unchanged — the
pre-existing directory and its contents are neither modified nor removed —
and issues no gateway call. -/
theorem claim_C7_already_staged (env : CreateEnv) (s : ServiceState)
    (input : CreateFunctionInput) (rt zf name : String) (c : FunctionCode)
    (d : DirEntry)
    (hv : validate input = true) (hrt : input.runtime = some rt)
    (hin : rt ∈ availableTags) (hc : input.code = some c)
    (hzf : c.zipFile = some zf) (hname : input.functionName = some name)
    (hstaged : lookupDisk s.disk (jp s.dir name) = some d) :
    create env s input = (.err .resourceInUse, s, []) := by
  simp [create, hv, hrt, hin, hc, hzf, hname, putZippedCode, hstaged]

/-- Claim C7 (witness): a second create of `"mytest"` against the state in
which `"mytest"` is already staged, leaving its `code.zip` in place. -/
theorem claim_C7_witness :
    lookupDisk sStaged.disk (jp sStaged.dir "mytest") =
      some [("code.zip", [1, 2, 3])]
    ∧ create env0 sStaged cOkInput = (.err .resourceInUse, sStaged, []) :=
  ⟨by decide,
    claim_C7_already_staged env0 sStaged cOkInput "go1.x" "aGVsbG8="
      "mytest" { zipFile := some "aGVsbG8=", s3Bucket := none, s3Key := none,
                 s3ObjectVersion := none }
      [("code.zip", [1, 2, 3])]
      (by decide) rfl (by decide) rfl rfl rfl (by decide)⟩

/-- Claim C8: for every registered function, `GetFromARN` applied to the
well-formed ARN `arn:aws:lambda:<region>:000000000000:function:<name>`
returns that function's record; and for every well-formed seven-segment
identifier in which the partition, service, region, account, or
resource-type segment differs from the expected value, it returns absent
(`nil`). -/
theorem claim_C8_getfromarn {α : Type} (region name t1 t2 t3 t4 t5 : List Char)
    (mapping : List (List Char × α)) (lf : α)
    (hregion : ':' ∉ region) (hname : ':' ∉ name)
    (h1 : ':' ∉ t1) (h2 : ':' ∉ t2) (h3 : ':' ∉ t3) (h4 : ':' ∉ t4)
    (h5 : ':' ∉ t5)
    (hfound : regLookup mapping name = some lf)
    (hmis : t1 ≠ "aws".data ∨ t2 ≠ "lambda".data ∨ t3 ≠ region ∨
            t4 ≠ "000000000000".data ∨ t5 ≠ "function".data) :
    getFromARN region mapping (joinColon (expectedSegs region ++ [name])) =
      some (some lf)
    ∧ getFromARN region mapping
        (joinColon ["arn".data, t1, t2, t3, t4, t5, name]) = some none := by
  have hexp : expectedSegs region ++ [name] =
      ["arn".data, "aws".data, "lambda".data, region, "000000000000".data,
       "function".data, name] := rfl
  constructor
  · have hsplit : goSplit (joinColon (expectedSegs region ++ [name])) =
        expectedSegs region ++ [name] := by
      apply goSplit_joinColon
      · simp [expectedSegs]
      · rw [hexp]
        intro s hs
        simp only [List.mem_cons, List.not_mem_nil, or_false] at hs
        rcases hs with rfl | rfl | rfl | rfl | rfl | rfl | rfl <;>
          first | decide | exact hregion | exact hname
    rw [getFromARN, hsplit, hexp]
    simp [getFromParts, arnCheck, expectedSegs, hfound]
  · have hsplit : goSplit (joinColon ["arn".data, t1, t2, t3, t4, t5, name]) =
        ["arn".data, t1, t2, t3, t4, t5, name] := by
      apply goSplit_joinColon
      · simp
      · intro s hs
        simp only [List.mem_cons, List.not_mem_nil, or_false] at hs
        rcases hs with rfl | rfl | rfl | rfl | rfl | rfl | rfl <;>
          first | decide | exact hname | assumption
    rw [getFromARN, hsplit]
    simp only [getFromParts, expectedSegs, arnCheck]
    rcases hmis with h | h | h | h | h <;> split_ifs <;> simp_all

/-- Claim C8 (witness): the registered function `"mytest"` is found through
its ARN, and a seven-segment identifier with a wrong account segment
resolves to absent. -/
theorem claim_C8_witness :
    regLookup [("mytest".data, 42)] "mytest".data = some 42
    ∧ getFromARN "ap-northeast-1".data [("mytest".data, 42)]
        (joinColon (expectedSegs "ap-northeast-1".data ++ ["mytest".data])) =
      some (some 42)
    ∧ getFromARN "ap-northeast-1".data [("mytest".data, 42)]
        (joinColon ["arn".data, "aws".data, "lambda".data,
          "ap-northeast-1".data, "111122223333".data, "function".data,
          "mytest".data]) = some none := by
  refine ⟨by decide, ?_, ?_⟩
  · exact (claim_C8_getfromarn "ap-northeast-1".data "mytest".data
      "aws".data "lambda".data "ap-northeast-1".data "111122223333".data
      "function".data [("mytest".data, 42)] 42
      (by decide) (by decide) (by decide) (by decide) (by decide) (by decide)
      (by decide) (by decide)
      (Or.inr (Or.inr (Or.inr (Or.inl (by decide)))))).1
  · exact (claim_C8_getfromarn "ap-northeast-1".data "mytest".data
      "aws".data "lambda".data "ap-northeast-1".data "111122223333".data
      "function".data [("mytest".data, 42)] 42
      (by decide) (by decide) (by decide) (by decide) (by decide) (by decide)
      (by decide) (by decide)
      (Or.inr (Or.inr (Or.inr (Or.inl (by decide)))))).2

/-- Claim C9: for every validated create request with a supported runtime,
an inline payload that decodes, a name with no staging directory yet, and a
gateway that launches the container successfully, `Create` succeeds and the
`CodeSize` of the returned record equals the byte length of the decoded
archive. -/
theorem claim_C9_codesize_roundtrip (env : CreateEnv) (s : ServiceState)
    (input : CreateFunctionInput) (rt zf name h : String)
    (c : FunctionCode) (mem tmo : Int) (bytes : List Nat) (cid : String)
    (hv : validate input = true) (hrt : input.runtime = some rt)
    (hin : rt ∈ availableTags) (hc : input.code = some c)
    (hzf : c.zipFile = some zf) (hname : input.functionName = some name)
    (hh : input.handler = some h) (hmem : input.memorySize = some mem)
    (htmo : input.timeout = some tmo)
    (hfresh : lookupDisk s.disk (jp s.dir name) = none)
    (hdec : base64Decode zf = some bytes)
    (hgw : env.gw { name := "wheelamb-" ++ name, envs := envsOf input,
                    dir := jp s.dir name, tag := rt, handler := h } =
      Except.ok cid) :
    ∃ lf, (create env s input).1 = CreateResult.ok lf
      ∧ lf.codeSize = bytes.length := by
  refine ⟨{ codeSha256 := env.sha256 zf, functionName := name,
            codeSize := bytes.length, revisionID := env.uuid,
            memorySize := mem,
            functionArn := "arn:aws:lambda:" ++ env.region ++
              ":000000000000:function:" ++ name,
            version := "$LATEST", timeout := tmo, lastModified := env.now,
            handler := h, runtime := rt, description := input.description,
            envs := envsOf input, containerID := cid }, ?_, rfl⟩
  simp [create, hv, hrt, hin, hc, hzf, hname, hh, hmem, htmo,
    putZippedCode, hfresh, hdec, hgw]

/-- Claim C9 (witness): creating `"mytest"` with the 8-character archive
`"aGVsbG8="`, which decodes to 5 bytes, yields a record with
`CodeSize = 5`. -/
theorem claim_C9_witness :
    base64Decode "aGVsbG8=" = some [104, 101, 108, 108, 111]
    ∧ ∃ lf, (create env0 s0 cOkInput).1 = CreateResult.ok lf
        ∧ lf.codeSize = 5 :=
  ⟨by decide,
    claim_C9_codesize_roundtrip env0 s0 cOkInput "go1.x" "aGVsbG8=" "mytest"
      "fake" { zipFile := some "aGVsbG8=", s3Bucket := none, s3Key := none,
               s3ObjectVersion := none }
      128 16 [104, 101, 108, 108, 111] "cid0"
      (by decide) rfl (by decide) rfl rfl rfl rfl rfl rfl (by decide)
      (by decide) rfl⟩

/-- Claim C10 (code evidence): `GetFromARN` indexes the colon-split
segments without a bounds check, so an identifier whose segments all match
a proper prefix of the six expected literals aborts with an index
out-of-range panic (modelled as `none`): `"arn"` panics at `parts[1]`, and
the six-segment `"arn:aws:lambda:<region>:000000000000:function"` panics
at `parts[6]`. -/
theorem claim_C10_getfromarn_panics :
    getFromARN "ap-northeast-1".data ([] : List (List Char × Nat))
        "arn".data = none
    ∧ getFromARN "ap-northeast-1".data ([] : List (List Char × Nat))
        "arn:aws:lambda:ap-northeast-1:000000000000:function".data = none := by
  decide

end Wheelamb
